import Mathlib

/-!
Verification of the API gateway request-admission pipeline of the
portfolio-microservices project: JWKS key resolution and caching, JWT
verification, role/permission guards, fixed-window rate limiting, the
per-route middleware chain, and the Express app handler stack.
All definitions are shallow embeddings of the JavaScript sources
(gateway auth middleware, rate-limiter middleware, gateway config,
route table, and server setup).
-/

namespace Gateway

/-- A JSON Web Key as served by the JWKS endpoint; only the fields the
middleware reads (`kid` for lookup, `n` for the PEM body) are modelled. -/
structure Jwk where
  kid : String
  n : String
deriving DecidableEq, Repr

/-- Module-level JWKS cache of the auth middleware: the variables
`jwksCache` and `jwksCacheTime`, both initially null. -/
structure JwksCacheState where
  jwksCache : Option (List Jwk)
  jwksCacheTime : Option Nat
deriving DecidableEq, Repr

/-- JWKS_CACHE_TTL = 3600000 ms (1 hour). -/
def JWKS_CACHE_TTL : Nat := 3600000

/-- Result of one `fetchJwks` call: the returned value or error, the
cache state afterwards, and how many network fetches were performed. -/
structure FetchOut where
  result : Except String (List Jwk)
  state : JwksCacheState
  fetches : Nat
deriving Repr

/-- Network fetch of the JWKS endpoint: `remote` is what
`GET .../.well-known/jwks.json` would deliver (error = network failure).
On success the cache is replaced and stamped with the current time. -/
def fetchFresh (st : JwksCacheState) (now : Nat)
    (remote : Except Unit (List Jwk)) : FetchOut :=
  match remote with
  | .ok keys => ⟨.ok keys, ⟨some keys, some now⟩, 1⟩
  | .error _ => ⟨.error "Unable to fetch JWKS", st, 1⟩

/-- Embedding of `fetchJwks`: if the cache holds a key set and its
timestamp is within the TTL, return it without touching the network;
otherwise fetch from the auth service and cache the response. -/
def fetchJwks (st : JwksCacheState) (now : Nat)
    (remote : Except Unit (List Jwk)) : FetchOut :=
  match st.jwksCache, st.jwksCacheTime with
  | some cache, some time =>
      if now - time < JWKS_CACHE_TTL then ⟨.ok cache, st, 0⟩
      else fetchFresh st now remote
  | some _, none => fetchFresh st now remote
  | none, _ => fetchFresh st now remote

/-- PEM wrapper the middleware builds around the key material `n`. -/
def pemOf (n : String) : String :=
  "-----BEGIN PUBLIC KEY-----\n" ++ n ++ "\n-----END PUBLIC KEY-----"

/-- Result of one `getPublicKey` call. -/
structure KeyOut where
  result : Except String String
  state : JwksCacheState
  fetches : Nat
deriving Repr

/-- Embedding of `getPublicKey`: obtain the JWKS via `fetchJwks`, look
up the key with matching `kid`, and convert it to PEM; any failure is
surfaced as the single catch-all error message of the middleware. -/
def getPublicKey (st : JwksCacheState) (now : Nat)
    (remote : Except Unit (List Jwk)) (kid : String) : KeyOut :=
  let f := fetchJwks st now remote
  match f.result with
  | .error _ =>
      ⟨.error "Unable to retrieve public key for token verification",
        f.state, f.fetches⟩
  | .ok keys =>
      match keys.find? (fun k => k.kid == kid) with
      | none =>
          ⟨.error "Unable to retrieve public key for token verification",
            f.state, f.fetches⟩
      | some k => ⟨.ok (pemOf k.n), f.state, f.fetches⟩

/-- Decoded JWT header: the fields `kid` and `alg`. -/
structure TokenHeader where
  kid : Option String
  alg : String
deriving DecidableEq, Repr

/-- Decoded JWT payload with the claims the middleware reads. -/
structure TokenPayload where
  sub : String
  email : Option String
  name : Option String
  roles : Option (List String)
  permissions : Option (List String)
  iss : String
  aud : String
  exp : Nat
deriving DecidableEq, Repr

/-- A decoded token. `signingN` is the public key material under which
the signature of this token actually verifies, so that signature
checking can be modelled without bit-level RSA. -/
structure Token where
  header : TokenHeader
  payload : TokenPayload
  signingN : String
deriving DecidableEq, Repr

/-- Configured token issuer (gateway config default TOKEN_ISSUER). -/
def tokenIssuer : String := "portfolio-api"

/-- Configured token audience (gateway config default TOKEN_AUDIENCE). -/
def tokenAudience : String := "portfolio-client"

/-- Algorithm allow-list passed to verification. -/
def allowedAlgorithms : List String := ["RS256"]

/-- Modelled from the spec: behaviour of the jsonwebtoken library call
`jwt.verify(token, publicKey, options)` with an algorithm allow-list,
issuer, and audience — the library itself is a dependency, not part of
the repository. It checks the algorithm against the allow-list, the
signature against the supplied public key, then issuer, audience and
expiry, returning the payload on success. -/
def jwtVerify (tok : Token) (publicKey : String) (algorithms : List String)
    (issuer audience : String) (nowSec : Nat) : Except String TokenPayload :=
  if ¬ algorithms.contains tok.header.alg then .error "invalid algorithm"
  else if publicKey ≠ pemOf tok.signingN then .error "invalid signature"
  else if tok.payload.iss ≠ issuer then .error "jwt issuer invalid"
  else if tok.payload.aud ≠ audience then .error "jwt audience invalid"
  else if tok.payload.exp ≤ nowSec then .error "jwt expired"
  else .ok tok.payload

/-- Result of one `verifyToken` call. -/
structure VerifyOut where
  result : Except String TokenPayload
  state : JwksCacheState
  fetches : Nat
deriving Repr

/-- Embedding of `verifyToken`: decode the token (the argument is the
`jwt.decode` result, `none` for a malformed token), require a `kid` in
the header, resolve the public key, and verify signature and claims;
every failure is rethrown as the uniform message Invalid token. -/
def verifyToken (st : JwksCacheState) (nowMs : Nat)
    (remote : Except Unit (List Jwk)) (nowSec : Nat)
    (decoded : Option Token) : VerifyOut :=
  match decoded with
  | none => ⟨.error "Invalid token", st, 0⟩
  | some tok =>
      match tok.header.kid with
      | none => ⟨.error "Invalid token", st, 0⟩
      | some kid =>
          let k := getPublicKey st nowMs remote kid
          match k.result with
          | .error _ => ⟨.error "Invalid token", k.state, k.fetches⟩
          | .ok publicKey =>
              match jwtVerify tok publicKey allowedAlgorithms
                  tokenIssuer tokenAudience nowSec with
              | .ok p => ⟨.ok p, k.state, k.fetches⟩
              | .error _ => ⟨.error "Invalid token", k.state, k.fetches⟩

/-- The `req.user` object the authenticate middleware builds. -/
structure UserInfo where
  id : String
  email : Option String
  name : Option String
  roles : List String
  permissions : List String
deriving DecidableEq, Repr

/-- Mapping from a verified payload to `req.user`: id from `sub`, name
falling back to email, roles and permissions defaulting to empty. -/
def mkUser (p : TokenPayload) : UserInfo :=
  { id := p.sub
    email := p.email
    name := match p.name with | some n => some n | none => p.email
    roles := p.roles.getD []
    permissions := p.permissions.getD [] }

/-- Environment of one authenticate call: JWKS cache state, clocks, the
network, and the decoding of raw token strings (`jwt.decode` result per
string, `none` meaning malformed). -/
structure AuthEnv where
  jwks : JwksCacheState
  nowMs : Nat
  nowSec : Nat
  remote : Except Unit (List Jwk)
  decode : String → Option Token

/-- The verifyToken call on a raw token string. -/
def verifyTokenStr (a : AuthEnv) (tk : String) : VerifyOut :=
  verifyToken a.jwks a.nowMs a.remote a.nowSec (a.decode tk)

/-- JavaScript truthiness for optional strings: an empty string counts
as absent. -/
def truthy : Option String → Option String
  | some s => if s = "" then none else some s
  | none => none

/-- The token-bearing parts of an inbound request: the Authorization
header, the access-token cookie, and the `token` query parameter. -/
structure ReqIn where
  authorization : Option String
  cookieAccessToken : Option String
  queryToken : Option String
deriving DecidableEq, Repr

/-- Cookie, then query-parameter fallback of token extraction. -/
def cookieOrQuery (r : ReqIn) : Option String :=
  match truthy r.cookieAccessToken with
  | some c => some c
  | none => truthy r.queryToken

/-- Embedding of `extractToken`: Authorization header with a Bearer
prefix first, then the cookie, then the query parameter. -/
def extractToken (r : ReqIn) : Option String :=
  match truthy r.authorization with
  | some h =>
      if h.startsWith "Bearer " then some (h.drop 7)
      else cookieOrQuery r
  | none => cookieOrQuery r

/-- The token as the authenticate middleware sees it (its falsiness
check treats an extracted empty string like a missing token). -/
def presentToken (r : ReqIn) : Option String := truthy (extractToken r)

/-- Outcome of one middleware step: pass control on (with the user
attached to the request) or end the request with a status and message. -/
inductive AuthStep where
  | next (user : Option UserInfo)
  | reject (status : Nat) (message : String)
deriving DecidableEq, Repr

/-- Embedding of `authenticate(required)`: missing token is a 401 when
auth is required and a pass-through with a null user otherwise; a token
that verifies attaches the mapped user; a token that fails verification
is a 401 when required, otherwise a pass-through with a null user. -/
def authenticate (required : Bool) (a : AuthEnv) (r : ReqIn) : AuthStep :=
  match presentToken r with
  | none =>
      if required then .reject 401 "Authentication required"
      else .next none
  | some tk =>
      match (verifyTokenStr a tk).result with
      | .ok p => .next (some (mkUser p))
      | .error _ =>
          if required then .reject 401 "Authentication failed"
          else .next none

/-- The user an authenticate call leaves on the request (none when it
rejects). -/
def identityOf (a : AuthEnv) (required : Bool) (r : ReqIn) : Option UserInfo :=
  match authenticate required a r with
  | .next u => u
  | .reject _ _ => none

/-- Embedding of `hasRole(roles)`: 401 without a user, 403 unless the
user holds at least one required role. -/
def hasRole (requiredRoles : List String) (user : Option UserInfo) : AuthStep :=
  match user with
  | none => .reject 401 "Authentication required"
  | some u =>
      if requiredRoles.any (fun role => u.roles.contains role) then .next (some u)
      else .reject 403 "Access denied"

/-- Embedding of `hasPermission(permissions)`: 401 without a user, 403
unless the user holds every required permission. -/
def hasPermission (requiredPermissions : List String) (user : Option UserInfo) :
    AuthStep :=
  match user with
  | none => .reject 401 "Authentication required"
  | some u =>
      if requiredPermissions.all (fun p => u.permissions.contains p) then
        .next (some u)
      else .reject 403 "Access denied"

/-- Rate-limiter options: window size in milliseconds and the maximum
request count per window. -/
structure RateConfig where
  windowMs : Nat
  max : Nat
deriving DecidableEq, Repr

/-- Gateway config `server.rateLimiter`: 15 minutes, 100 requests. -/
def defaultRateConfig : RateConfig := ⟨15 * 60 * 1000, 100⟩

/-- The standard limiter is `createRateLimiter()` with no overrides. -/
def standardLimiterConfig : RateConfig := defaultRateConfig

/-- The strict limiter overrides to 1 hour, 20 requests. -/
def strictLimiterConfig : RateConfig := ⟨60 * 60 * 1000, 20⟩

/-- The public limiter overrides to 15 minutes, 300 requests. -/
def publicLimiterConfig : RateConfig := ⟨15 * 60 * 1000, 300⟩

/-- Retry-after figure in the 429 body: ceil(windowMs / 1000 / 60)
minutes. -/
def retryAfterMinutes (windowMs : Nat) : Nat := (windowMs + 59999) / 60000

/-- Per-key window counter: request count and window start time. -/
structure WindowCounter where
  count : Nat
  windowStart : Nat
deriving DecidableEq, Repr

/-- Modelled from the spec: fixed-window counting of the
express-rate-limit library (a dependency, not repository code) as the
spec describes it — every request increments the current window counter
of its key, and a window starts at the first request after the previous
window elapsed. -/
def rateStep (cfg : RateConfig) (st : Option WindowCounter) (now : Nat) :
    WindowCounter :=
  match st with
  | some s =>
      if now - s.windowStart < cfg.windowMs then ⟨s.count + 1, s.windowStart⟩
      else ⟨1, now⟩
  | none => ⟨1, now⟩

/-- Decision of the limiter for one request. -/
inductive RateDecision where
  | allowed
  | limited (status : Nat) (retryMinutes : Nat)
deriving DecidableEq, Repr

/-- One limiter check: increment the window counter, allow while the
count stays within the maximum, otherwise answer 429 with the
retry-after figure of the handler in the rate-limiter middleware. -/
def rateCheck (cfg : RateConfig) (st : Option WindowCounter) (now : Nat) :
    RateDecision × WindowCounter :=
  let s := rateStep cfg st now
  (if s.count ≤ cfg.max then .allowed
   else .limited 429 (retryAfterMinutes cfg.windowMs), s)

/-- A sequence of requests of one client key at the given times. -/
def rateRun (cfg : RateConfig) (st : Option WindowCounter) :
    List Nat → List RateDecision
  | [] => []
  | t :: ts =>
      let d := rateCheck cfg st t
      d.1 :: rateRun cfg (some d.2) ts

/-- One entry of a route list in the gateway route configuration. -/
structure RouteDef where
  path : String
  method : String
  auth : Bool
deriving DecidableEq, Repr

/-- One service block of the gateway route configuration. -/
structure ServiceDef where
  name : String
  basePath : String
  target : String
  routes : List RouteDef
deriving DecidableEq, Repr

/-- Auth service block of the route table. -/
def authService : ServiceDef :=
  ⟨"auth", "/api/auth", "http://auth-service:3001",
    [⟨"/login", "POST", false⟩,
     ⟨"/register", "POST", false⟩,
     ⟨"/refresh-token", "POST", false⟩,
     ⟨"/logout", "POST", true⟩,
     ⟨"/verify-email/:token", "GET", false⟩,
     ⟨"/forgot-password", "POST", false⟩,
     ⟨"/reset-password/:token", "POST", false⟩]⟩

/-- Profile service block of the route table. -/
def profileService : ServiceDef :=
  ⟨"profile", "/api/profiles", "http://profile-service:3002",
    [⟨"", "GET", false⟩,
     ⟨"/:id", "GET", false⟩,
     ⟨"/me", "GET", true⟩,
     ⟨"/me", "PUT", true⟩,
     ⟨"/me/skills", "POST", true⟩,
     ⟨"/me/skills/:id", "PUT", true⟩,
     ⟨"/me/skills/:id", "DELETE", true⟩,
     ⟨"/me/experience", "POST", true⟩,
     ⟨"/me/experience/:id", "PUT", true⟩,
     ⟨"/me/experience/:id", "DELETE", true⟩]⟩

/-- Projects service block of the route table. -/
def projectsService : ServiceDef :=
  ⟨"projects", "/api/projects", "http://projects-service:3003",
    [⟨"", "GET", false⟩,
     ⟨"/:id", "GET", false⟩,
     ⟨"", "POST", true⟩,
     ⟨"/:id", "PUT", true⟩,
     ⟨"/:id", "DELETE", true⟩,
     ⟨"/:id/technologies", "POST", true⟩,
     ⟨"/:id/technologies/:techId", "DELETE", true⟩]⟩

/-- Blog service block of the route table. -/
def blogService : ServiceDef :=
  ⟨"blog", "/api/blog", "http://blog-service:3004",
    [⟨"/articles", "GET", false⟩,
     ⟨"/articles/:id", "GET", false⟩,
     ⟨"/articles", "POST", true⟩,
     ⟨"/articles/:id", "PUT", true⟩,
     ⟨"/articles/:id", "DELETE", true⟩,
     ⟨"/categories", "GET", false⟩,
     ⟨"/categories", "POST", true⟩,
     ⟨"/categories/:id", "PUT", true⟩,
     ⟨"/categories/:id", "DELETE", true⟩,
     ⟨"/articles/:id/comments", "GET", false⟩,
     ⟨"/articles/:id/comments", "POST", true⟩,
     ⟨"/comments/:id", "PUT", true⟩,
     ⟨"/comments/:id", "DELETE", true⟩]⟩

/-- Contact service block of the route table. -/
def contactService : ServiceDef :=
  ⟨"contact", "/api/contact", "http://contact-service:3005",
    [⟨"/messages", "POST", false⟩,
     ⟨"/messages", "GET", true⟩,
     ⟨"/messages/:id", "GET", true⟩,
     ⟨"/messages/:id", "PUT", true⟩,
     ⟨"/messages/:id", "DELETE", true⟩]⟩

/-- Analytics service block of the route table. -/
def analyticsService : ServiceDef :=
  ⟨"analytics", "/api/analytics", "http://analytics-service:3006",
    [⟨"/metrics", "GET", true⟩,
     ⟨"/visitors", "GET", true⟩,
     ⟨"/pageviews", "GET", true⟩,
     ⟨"/track", "POST", false⟩]⟩

/-- All service blocks in configuration order. -/
def services : List ServiceDef :=
  [authService, profileService, projectsService, blogService,
   contactService, analyticsService]

/-- All (service, route) pairs the server setup loop registers. -/
def registeredRoutes : List (ServiceDef × RouteDef) :=
  (services.map (fun s => s.routes.map (fun r => (s, r)))).flatten

/-- Leading-match test on character lists: the first list read as a
pattern starts the second. -/
def leadsWith : List Char → List Char → Bool
  | [], _ => true
  | _ :: _, [] => false
  | a :: ps, b :: ts => a == b && leadsWith ps ts

/-- Substring search on character lists. -/
def containsSub (pat : List Char) : List Char → Bool
  | [] => leadsWith pat []
  | c :: rest => leadsWith pat (c :: rest) || containsSub pat rest

/-- Substring containment test used for the login/register path check. -/
def containsSubstr (s pat : String) : Bool := containsSub pat.data s.data

/-- Limiter selection of the server setup loop: strict for POST
login/register paths, public for routes without required auth,
standard otherwise. -/
def pickLimiter (method fullPath : String) (isAuthRequired : Bool) : RateConfig :=
  if method == "POST" &&
      (containsSubstr fullPath "/login" || containsSubstr fullPath "/register") then
    strictLimiterConfig
  else if !isAuthRequired then publicLimiterConfig
  else standardLimiterConfig

/-- The limiter of the chain of a registered route. -/
def routeLimiter (s : ServiceDef) (r : RouteDef) : RateConfig :=
  pickLimiter r.method (s.basePath ++ r.path) r.auth

/-- One stage of a per-route middleware chain. The authorize stage is
the role-check middleware; the data type provides it so its presence in
a chain can be stated. -/
inductive Stage where
  | rateLimit (cfg : RateConfig)
  | auth (required : Bool)
  | authorize (roles : List String)
  | setTarget (name target : String)
  | proxy (target : String)
deriving DecidableEq, Repr

/-- Test for the authorize stage. -/
def isAuthorizeStage : Stage → Bool
  | .authorize _ => true
  | _ => false

/-- Middleware chain the server setup loop passes to the route
registration: the picked rate limiter, authenticate with the required
flag of the route, the target-info middleware, and the proxy. -/
def routeChain (s : ServiceDef) (r : RouteDef) : List Stage :=
  [Stage.rateLimit (routeLimiter s r),
   Stage.auth r.auth,
   Stage.setTarget s.name s.target,
   Stage.proxy s.target]

/-- Identity-trust headers the proxy sets on the outbound request. -/
structure ProxyHeaders where
  xUserId : Option String
  xUserRoles : Option String
  xRequestId : Option String
deriving DecidableEq, Repr

/-- JSON.stringify of a list of plain strings. -/
def jsonStringArray (xs : List String) : String :=
  "[" ++ String.intercalate "," (xs.map (fun s => "\"" ++ s ++ "\"")) ++ "]"

/-- Final outcome of one request: a response produced by the gateway
itself, or a forwarding to a target with the outbound headers and the
status the backend answered. -/
inductive Outcome where
  | responded (status : Nat)
  | forwarded (target : String) (headers : ProxyHeaders) (backendStatus : Nat)
deriving DecidableEq, Repr

/-- Environment of one request run: the auth environment, the clock,
the window counter of this client for the limiter of the chain, the
request id, and the status each backend target would answer. -/
structure ChainEnv where
  auth : AuthEnv
  now : Nat
  rateState : Option WindowCounter
  requestId : String
  backendStatus : String → Nat

/-- Execution of a middleware chain on one request: each gate either
passes control to the rest of the chain or ends the request; the proxy
stage builds the outbound headers (identity headers only when a user is
attached) and forwards. The second component counts forwardings. An
exhausted chain falls through to the app fallback. -/
def runChain (env : ChainEnv) (r : ReqIn) :
    List Stage → Option UserInfo → Outcome × Nat
  | [], _ => (Outcome.responded 404, 0)
  | stage :: rest, user =>
      match stage with
      | .rateLimit cfg =>
          match (rateCheck cfg env.rateState env.now).1 with
          | .allowed => runChain env r rest user
          | .limited s _ => (Outcome.responded s, 0)
      | .auth required =>
          match authenticate required env.auth r with
          | .next u => runChain env r rest u
          | .reject s _ => (Outcome.responded s, 0)
      | .authorize roles =>
          match hasRole roles user with
          | .next u => runChain env r rest u
          | .reject s _ => (Outcome.responded s, 0)
      | .setTarget _ _ => runChain env r rest user
      | .proxy target =>
          (Outcome.forwarded target
            { xUserId := user.map (fun u => u.id)
              xUserRoles := user.map (fun u => jsonStringArray u.roles)
              xRequestId := some env.requestId }
            (env.backendStatus target), 1)

/-- Handlers of the Express app, in the roles they play. -/
inductive AppHandler where
  | health
  | fallback404
  | metrics
  | routeHandler (s : ServiceDef) (r : RouteDef)
deriving DecidableEq, Repr

/-- One registered app-level handler: an optional method filter (none
for `app.use`), an optional path pattern (none for the catch-all), and
the handler. -/
structure AppEntry where
  methodFilter : Option String
  pathPattern : Option String
  handler : AppHandler
deriving DecidableEq, Repr

/-- Split of a character list at slashes. -/
def splitSlash : List Char → List Char → List String
  | [], acc => [String.mk acc.reverse]
  | c :: rest, acc =>
      if c == '/' then String.mk acc.reverse :: splitSlash rest []
      else splitSlash rest (c :: acc)

/-- Path split into nonempty segments. -/
def segsOf (p : String) : List String :=
  (splitSlash p.data []).filter (fun s => s ≠ "")

/-- Test for a named-parameter segment (one starting with a colon). -/
def isParamSeg (s : String) : Bool :=
  match s.data with
  | c :: _ => c == ':'
  | [] => false

/-- Segment matching of Express path patterns: a `:name` segment
matches any one segment, other segments match literally. -/
def segMatch : List String → List String → Bool
  | [], [] => true
  | p :: ps, a :: rest => (isParamSeg p || p == a) && segMatch ps rest
  | _, _ => false

/-- Pattern match of a request path against a route pattern. -/
def pathMatches (pattern path : String) : Bool :=
  segMatch (segsOf pattern) (segsOf path)

/-- The app handler stack in registration order of the server setup
file: the health endpoint, then the catch-all 404 handler, then the
metrics endpoint, then every proxied route of the setup loop. -/
def appStack : List AppEntry :=
  [⟨some "GET", some "/health", AppHandler.health⟩,
   ⟨none, none, AppHandler.fallback404⟩,
   ⟨some "GET", some "/metrics", AppHandler.metrics⟩] ++
  registeredRoutes.map
    (fun p => ⟨some p.2.method, some (p.1.basePath ++ p.2.path),
      AppHandler.routeHandler p.1 p.2⟩)

/-- Whether an app entry matches a request. -/
def entryMatches (e : AppEntry) (method path : String) : Bool :=
  (match e.methodFilter with
   | none => true
   | some m => m == method) &&
  (match e.pathPattern with
   | none => true
   | some pat => pathMatches pat path)

/-- Express dispatch: the first registered handler that matches. -/
def dispatch (method path : String) : Option AppHandler :=
  (appStack.find? (fun e => entryMatches e method path)).map
    (fun e => e.handler)

/-- Whether some RouteRule of the route table matches the request. -/
def matchesRule (method path : String) : Bool :=
  registeredRoutes.any
    (fun p => p.2.method == method && pathMatches (p.1.basePath ++ p.2.path) path)

/-- Response of the whole app to one request: dispatch to the first
matching handler and run it; the health and metrics endpoints respond
200, the catch-all responds 404, a route handler runs its chain. -/
def appRespond (env : ChainEnv) (r : ReqIn) (method path : String) :
    Outcome × Nat :=
  match dispatch method path with
  | some .health => (Outcome.responded 200, 0)
  | some .fallback404 => (Outcome.responded 404, 0)
  | some .metrics => (Outcome.responded 200, 0)
  | some (.routeHandler s rt) => runChain env r (routeChain s rt) none
  | none => (Outcome.responded 404, 0)

/-- Key material of the sample signing key with kid 1. -/
def sampleKeyN : String := "SAMPLE-KEY-MATERIAL"

/-- Sample JWKS entry with kid 1. -/
def sampleKey : Jwk := ⟨"1", sampleKeyN⟩

/-- Cache state holding the sample key, freshly stamped. -/
def freshCache : JwksCacheState := ⟨some [sampleKey], some 0⟩

/-- Sample valid token: kid 1, RS256, configured issuer and audience,
expiry in the future, one role and one permission. -/
def sampleToken : Token :=
  ⟨⟨some "1", "RS256"⟩,
   ⟨"user-1", some "u1@example.com", none, some ["admin"],
    some ["projects:write"], "portfolio-api", "portfolio-client", 2000⟩,
   sampleKeyN⟩

/-- Sample expired token: like the valid one but with expiry 0. -/
def expiredToken : Token :=
  ⟨⟨some "1", "RS256"⟩,
   ⟨"user-1", some "u1@example.com", none, some ["admin"],
    some ["projects:write"], "portfolio-api", "portfolio-client", 0⟩,
   sampleKeyN⟩

/-- Concrete auth environment: fresh cache with the sample key, no
network, and a decode table with one valid and one expired token. -/
def cAuthEnv : AuthEnv :=
  { jwks := freshCache
    nowMs := 1000
    nowSec := 100
    remote := .error ()
    decode := fun s =>
      if s = "good-token" then some sampleToken
      else if s = "bad-token" then some expiredToken
      else none }

/-- Request carrying the valid token in the access-token cookie. -/
def cReqGood : ReqIn := ⟨none, some "good-token", none⟩

/-- Request carrying the expired token in the access-token cookie. -/
def cReqBad : ReqIn := ⟨none, some "bad-token", none⟩

/-- Request carrying no credential at all. -/
def cReqAnon : ReqIn := ⟨none, none, none⟩

/-- Concrete chain environment with no prior requests in the window. -/
def cEnv : ChainEnv :=
  { auth := cAuthEnv
    now := 10
    rateState := none
    requestId := "req-1"
    backendStatus := fun _ => 200 }

/-- Concrete chain environment whose window counter already reached the
standard maximum. -/
def cEnvLimited : ChainEnv := { cEnv with rateState := some ⟨100, 0⟩ }

/-- Profile route GET /me, an auth-required registered route. -/
def cMeRoute : RouteDef := ⟨"/me", "GET", true⟩

/-- Fetching fresh always performs exactly one network fetch. -/
lemma fetchFresh_fetches (st : JwksCacheState) (now : Nat)
    (remote : Except Unit (List Jwk)) : (fetchFresh st now remote).fetches = 1 := by
  cases remote <;> rfl

/-- Any fetchJwks call performs at most one network fetch. -/
lemma fetchJwks_fetches_le_one (st : JwksCacheState) (now : Nat)
    (remote : Except Unit (List Jwk)) : (fetchJwks st now remote).fetches ≤ 1 := by
  obtain ⟨jc, jt⟩ := st
  cases jc with
  | none => simp only [fetchJwks]; rw [fetchFresh_fetches]
  | some c =>
      cases jt with
      | none => simp only [fetchJwks]; rw [fetchFresh_fetches]
      | some t =>
          simp only [fetchJwks]
          by_cases h : now - t < JWKS_CACHE_TTL
          · rw [if_pos h]; exact Nat.zero_le 1
          · rw [if_neg h, fetchFresh_fetches]

/-- getPublicKey passes the fetch count of fetchJwks through. -/
lemma getPublicKey_fetches (st : JwksCacheState) (now : Nat)
    (remote : Except Unit (List Jwk)) (kid : String) :
    (getPublicKey st now remote kid).fetches = (fetchJwks st now remote).fetches := by
  unfold getPublicKey
  cases hres : (fetchJwks st now remote).result with
  | error e => simp [hres]
  | ok keys =>
      cases hfind : keys.find? (fun k => k.kid == kid) <;> simp [hres, hfind]

/-- With a fresh cache, fetchJwks answers from the cache, fetch-free. -/
lemma fetchJwks_fresh (keys : List Jwk) (tc now : Nat)
    (remote : Except Unit (List Jwk)) (hfresh : now - tc < JWKS_CACHE_TTL) :
    fetchJwks ⟨some keys, some tc⟩ now remote =
      ⟨Except.ok keys, ⟨some keys, some tc⟩, 0⟩ := by
  simp [fetchJwks, hfresh]

/-- C1: a token signed by a key whose kid is present in the current
cached key set, carrying the configured issuer, audience and algorithm,
with an expiry in the future, verifies successfully, and the identity
the middleware derives has id equal to the sub claim of the token and
roles equal to its roles claim. -/
theorem verify_token_success
    (keys : List Jwk) (tc nowMs nowSec : Nat) (remote : Except Unit (List Jwk))
    (tok : Token) (kid n : String) (rs : List String)
    (hfresh : nowMs - tc < JWKS_CACHE_TTL)
    (hfind : keys.find? (fun k => k.kid == kid) = some ⟨kid, n⟩)
    (hkid : tok.header.kid = some kid)
    (halg : tok.header.alg = "RS256")
    (hsig : tok.signingN = n)
    (hiss : tok.payload.iss = tokenIssuer)
    (haud : tok.payload.aud = tokenAudience)
    (hexp : nowSec < tok.payload.exp)
    (hroles : tok.payload.roles = some rs) :
    (verifyToken ⟨some keys, some tc⟩ nowMs remote nowSec (some tok)).result
      = Except.ok tok.payload ∧
    (mkUser tok.payload).id = tok.payload.sub ∧
    (mkUser tok.payload).roles = rs := by
  obtain ⟨⟨hk, alg⟩, pl, sn⟩ := tok
  simp only at hkid halg hsig hiss haud hexp hroles
  subst hkid; subst halg; subst hsig
  have hkey : getPublicKey ⟨some keys, some tc⟩ nowMs remote kid =
      ⟨Except.ok (pemOf sn), ⟨some keys, some tc⟩, 0⟩ := by
    unfold getPublicKey
    rw [fetchJwks_fresh keys tc nowMs remote hfresh]
    simp [hfind]
  have hj : jwtVerify ⟨⟨some kid, "RS256"⟩, pl, sn⟩ (pemOf sn) allowedAlgorithms
      tokenIssuer tokenAudience nowSec = Except.ok pl := by
    simp [jwtVerify, allowedAlgorithms, hiss, haud, Nat.not_le.mpr hexp]
  refine ⟨?_, rfl, by simp [mkUser, hroles]⟩
  simp only [verifyToken, hkey, hj]

/-- C1 witness: the sample token against the fresh sample cache. -/
theorem verify_token_success_witness :
    (verifyToken ⟨some [sampleKey], some 0⟩ 1000 (Except.error ()) 100
        (some sampleToken)).result = Except.ok sampleToken.payload ∧
    (mkUser sampleToken.payload).id = sampleToken.payload.sub ∧
    (mkUser sampleToken.payload).roles = ["admin"] :=
  verify_token_success [sampleKey] 0 1000 100 (Except.error ()) sampleToken
    "1" sampleKeyN ["admin"] (by decide) (by decide) rfl rfl rfl rfl rfl
    (by decide) rfl

/-- C2 counterexample: with a fresh cached key set that lacks kid 1,
the key lookup fails after zero network fetches — no forced refresh
happens — although the issuer endpoint does publish kid 1 at that
moment. -/
theorem key_refresh_counterexample :
    (getPublicKey ⟨some [⟨"2", "OTHER"⟩], some 0⟩ 1000
        (Except.ok [⟨"1", "K1"⟩]) "1").fetches = 0 ∧
    (getPublicKey ⟨some [⟨"2", "OTHER"⟩], some 0⟩ 1000
        (Except.ok [⟨"1", "K1"⟩]) "1").result
      = Except.error "Unable to retrieve public key for token verification" := by
  exact ⟨rfl, rfl⟩

/-- C2 (amended): a lookup of a kid absent from a fresh cached key set
fails with zero refreshes; every lookup performs at most one fetch; and
with an empty cache a lookup of an unpublished kid performs exactly one
fetch and then fails. -/
theorem key_refresh_amended
    (keys : List Jwk) (tc now : Nat) (remote : Except Unit (List Jwk)) (kid : String)
    (hfresh : now - tc < JWKS_CACHE_TTL)
    (habsent : keys.find? (fun k => k.kid == kid) = none) :
    (getPublicKey ⟨some keys, some tc⟩ now remote kid).fetches = 0 ∧
    (getPublicKey ⟨some keys, some tc⟩ now remote kid).result
      = Except.error "Unable to retrieve public key for token verification" ∧
    (∀ st2 n2 r2 k2, (getPublicKey st2 n2 r2 k2).fetches ≤ 1) ∧
    (∀ n2 k2 (pub : List Jwk), pub.find? (fun k => k.kid == k2) = none →
      (getPublicKey ⟨none, none⟩ n2 (Except.ok pub) k2).fetches = 1 ∧
      (getPublicKey ⟨none, none⟩ n2 (Except.ok pub) k2).result
        = Except.error "Unable to retrieve public key for token verification") := by
  have hmain : getPublicKey ⟨some keys, some tc⟩ now remote kid =
      ⟨Except.error "Unable to retrieve public key for token verification",
        ⟨some keys, some tc⟩, 0⟩ := by
    unfold getPublicKey
    rw [fetchJwks_fresh keys tc now remote hfresh]
    simp [habsent]
  refine ⟨by rw [hmain], by rw [hmain], ?_, ?_⟩
  · intro st2 n2 r2 k2
    rw [getPublicKey_fetches]
    exact fetchJwks_fetches_le_one st2 n2 r2
  · intro n2 k2 pub hpub
    have : getPublicKey ⟨none, none⟩ n2 (Except.ok pub) k2 =
        ⟨Except.error "Unable to retrieve public key for token verification",
          ⟨some pub, some n2⟩, 1⟩ := by
      unfold getPublicKey fetchJwks fetchFresh
      simp [hpub]
    exact ⟨by rw [this], by rw [this]⟩

/-- C2 amended witness: the fresh sample state lacking kid 7. -/
theorem key_refresh_amended_witness :
    (getPublicKey ⟨some [sampleKey], some 0⟩ 500 (Except.error ()) "7").fetches = 0 ∧
    (getPublicKey ⟨some [sampleKey], some 0⟩ 500 (Except.error ()) "7").result
      = Except.error "Unable to retrieve public key for token verification" :=
  ⟨(key_refresh_amended [sampleKey] 0 500 (Except.error ()) "7"
      (by decide) (by decide)).1,
   (key_refresh_amended [sampleKey] 0 500 (Except.error ()) "7"
      (by decide) (by decide)).2.1⟩

/-- Within one window, starting from a counter at c, the k-th further
request is allowed exactly while the running count stays within the
maximum. -/
lemma rateRun_window (cfg : RateConfig) (t0 : Nat) :
    ∀ (times : List Nat) (c : Nat), (∀ t ∈ times, t - t0 < cfg.windowMs) →
      rateRun cfg (some ⟨c, t0⟩) times =
        (List.range times.length).map
          (fun i => if c + i + 1 ≤ cfg.max then RateDecision.allowed
                    else RateDecision.limited 429 (retryAfterMinutes cfg.windowMs))
  | [], _, _ => rfl
  | t :: ts, c, h => by
      have ht : t - t0 < cfg.windowMs := h t (List.mem_cons_self t ts)
      have ih := rateRun_window cfg t0 ts (c + 1)
        (fun x hx => h x (List.mem_cons_of_mem t hx))
      simp only [rateRun, rateCheck, rateStep, if_pos ht, ih, List.length_cons,
        List.range_succ_eq_map, List.map_cons, List.map_map]
      congr 1
      apply List.map_congr_left
      intro a _
      simp only [Function.comp, Nat.succ_eq_add_one]
      have hh : c + 1 + a + 1 = c + (a + 1) + 1 := by omega
      rw [hh]

/-- C3 counterexample: the standard rate class is not configured with a
60-second window — its window is 900000 ms (15 minutes) and the
retry-after figure of its 429 body is 15 minutes, not 1. -/
theorem rate_limit_counterexample :
    standardLimiterConfig.windowMs ≠ 60 * 1000 ∧
    standardLimiterConfig.windowMs = 900000 ∧
    retryAfterMinutes standardLimiterConfig.windowMs = 15 := by
  decide

/-- C3 (amended): for a class with window W and maximum N, the first N
requests of one window are allowed and every later request in that
window answers 429 with the retry-after figure derived from the window
size; the first request after the window rolls is allowed again; the
standard class is max 100 per 15 minutes, with a retry-after of 15
minutes. -/
theorem rate_limit_amended (cfg : RateConfig) (t0 c : Nat) (times : List Nat)
    (hmax : 1 ≤ cfg.max)
    (hall : ∀ t ∈ times, t - t0 < cfg.windowMs) :
    rateRun cfg none (t0 :: times) =
      (List.range (times.length + 1)).map
        (fun i => if i + 1 ≤ cfg.max then RateDecision.allowed
                  else RateDecision.limited 429 (retryAfterMinutes cfg.windowMs)) ∧
    (rateCheck cfg (some ⟨c, t0⟩) (t0 + cfg.windowMs)).1 = RateDecision.allowed ∧
    standardLimiterConfig = ⟨900000, 100⟩ ∧
    retryAfterMinutes standardLimiterConfig.windowMs = 15 := by
  refine ⟨?_, ?_, rfl, rfl⟩
  · simp only [rateRun, rateCheck, rateStep, rateRun_window cfg t0 times 1 hall,
      List.range_succ_eq_map, List.map_cons, List.map_map]
    congr 1
    apply List.map_congr_left
    intro a _
    simp only [Function.comp, Nat.succ_eq_add_one]
    have hh : 1 + a + 1 = a + 1 + 1 := by omega
    rw [hh]
  · have hroll : ¬ (t0 + cfg.windowMs - t0 < cfg.windowMs) := by omega
    simp [rateCheck, rateStep, hroll, hmax]

/-- C3 amended witness: four requests inside one standard window are
all allowed, and a request a full window later is allowed again. -/
theorem rate_limit_amended_witness :
    rateRun standardLimiterConfig none [0, 1, 2, 3] =
      [RateDecision.allowed, RateDecision.allowed,
       RateDecision.allowed, RateDecision.allowed] ∧
    (rateCheck standardLimiterConfig (some ⟨100, 0⟩) 900000).1
      = RateDecision.allowed := by
  have h := rate_limit_amended standardLimiterConfig 0 100 [1, 2, 3]
    (by decide) (by decide)
  refine ⟨?_, ?_⟩
  · rw [h.1]; rfl
  · have h2 := h.2.1
    norm_num at h2
    exact h2

/-- C4 counterexample: the auth logout route is registered, yet its
composed middleware chain contains no authorization stage — the
role/permission middleware is never mounted by the setup loop. -/
theorem pipeline_stages_counterexample :
    (authService, RouteDef.mk "/logout" "POST" true) ∈ registeredRoutes ∧
    (routeChain authService (RouteDef.mk "/logout" "POST" true)).any
      isAuthorizeStage = false := by
  exact ⟨by decide, rfl⟩

/-- C4 (amended): for every registered route the composed chain is
exactly rate-limit, then authenticate, then the target-info middleware,
then forward, in that order, and no authorization stage is present in
any chain. -/
theorem pipeline_order_amended :
    ∀ p ∈ registeredRoutes,
      routeChain p.1 p.2 =
        [Stage.rateLimit (routeLimiter p.1 p.2), Stage.auth p.2.auth,
         Stage.setTarget p.1.name p.1.target, Stage.proxy p.1.target] ∧
      (routeChain p.1 p.2).any isAuthorizeStage = false := by
  intro p _
  exact ⟨rfl, rfl⟩

/-- C4 amended witness: the chain of the profile GET /me route. -/
theorem pipeline_order_amended_witness :
    routeChain profileService cMeRoute =
      [Stage.rateLimit (routeLimiter profileService cMeRoute),
       Stage.auth cMeRoute.auth,
       Stage.setTarget profileService.name profileService.target,
       Stage.proxy profileService.target] ∧
    (routeChain profileService cMeRoute).any isAuthorizeStage = false :=
  pipeline_order_amended (profileService, cMeRoute) (by decide)

/-- C5: on every registered-route chain, a request the rate-limit,
authentication, or authorization gate rejects is answered by the gate
itself and the proxy stage is never invoked — the forwarding count of
the run is zero. -/
theorem gate_reject_no_forward (env : ChainEnv) (r : ReqIn)
    (s : ServiceDef) (rt : RouteDef) (status : Nat)
    (h : (runChain env r (routeChain s rt) none).1 = Outcome.responded status) :
    (runChain env r (routeChain s rt) none).2 = 0 := by
  unfold routeChain at h ⊢
  cases hrate : (rateCheck (routeLimiter s rt) env.rateState env.now).1 with
  | limited st2 rm => simp [runChain, hrate]
  | allowed =>
      cases hauth : authenticate rt.auth env.auth r with
      | reject st2 m => simp [runChain, hrate, hauth]
      | next u =>
          exfalso
          simp [runChain, hrate, hauth] at h

/-- C5 witness: a client over the standard limit is answered 429 with
zero forwardings. -/
theorem gate_reject_no_forward_witness :
    (runChain cEnvLimited cReqGood (routeChain profileService cMeRoute) none).1
      = Outcome.responded 429 ∧
    (runChain cEnvLimited cReqGood (routeChain profileService cMeRoute) none).2
      = 0 :=
  ⟨rfl, gate_reject_no_forward cEnvLimited cReqGood profileService cMeRoute
    429 rfl⟩

/-- C6: evaluation of the server at the scenario request. GET
/api/profiles/me is a registered auth-required route and the bearer
token (kid 1, configured issuer and audience, unexpired) authenticates
successfully, yet the app answers 404 with zero forwardings, because
the catch-all 404 handler is registered before the proxied routes and
matches first — the forwarding with X-User-Id never happens. -/
theorem forward_scenario_404_bug :
    matchesRule "GET" "/api/profiles/me" = true ∧
    authenticate true cAuthEnv cReqGood
      = AuthStep.next (some (mkUser sampleToken.payload)) ∧
    dispatch "GET" "/api/profiles/me" = some AppHandler.fallback404 ∧
    appRespond cEnv cReqGood "GET" "/api/profiles/me"
      = (Outcome.responded 404, 0) := by
  exact ⟨by decide, rfl, by decide, rfl⟩

/-- C7 counterexample: GET /health matches no RouteRule of the route
table, yet the app answers 200 from the health endpoint, not 404. -/
theorem route_fallback_counterexample :
    matchesRule "GET" "/health" = false ∧
    appRespond cEnv cReqAnon "GET" "/health" = (Outcome.responded 200, 0) := by
  exact ⟨by decide, rfl⟩

/-- C7 (amended): every request that matches no RouteRule and is not
handled by the health endpoint is answered 404 by the catch-all handler
and the forwarder is never invoked. -/
theorem route_not_found_amended (env : ChainEnv) (r : ReqIn)
    (method path : String)
    (hnm : matchesRule method path = false)
    (hnh : ¬ (method = "GET" ∧ pathMatches "/health" path = true)) :
    appRespond env r method path = (Outcome.responded 404, 0) := by
  have h1 : entryMatches ⟨some "GET", some "/health", AppHandler.health⟩
      method path = false := by
    unfold entryMatches
    by_cases hm : method = "GET"
    · subst hm
      cases hp : pathMatches "/health" path with
      | true => exact absurd ⟨rfl, hp⟩ hnh
      | false => simp [hp]
    · have : ("GET" == method) = false := by
        simp [BEq.beq, String.decEq]
        exact fun hc => hm hc.symm
      simp [this]
  have h2 : (fun e => entryMatches e method path)
      (⟨none, none, AppHandler.fallback404⟩ : AppEntry) = true := rfl
  have hd : dispatch method path = some AppHandler.fallback404 := by
    unfold dispatch
    have hstack : appStack =
        ⟨some "GET", some "/health", AppHandler.health⟩ ::
        ⟨none, none, AppHandler.fallback404⟩ ::
        (⟨some "GET", some "/metrics", AppHandler.metrics⟩ ::
          registeredRoutes.map
            (fun p => ⟨some p.2.method, some (p.1.basePath ++ p.2.path),
              AppHandler.routeHandler p.1 p.2⟩)) := rfl
    rw [hstack,
      List.find?_cons_of_neg (p := fun e => entryMatches e method path) _
        (by simp [h1]),
      List.find?_cons_of_pos (p := fun e => entryMatches e method path) _ h2]
    rfl
  unfold appRespond
  rw [hd]

/-- C7 amended witness: an unregistered path answers 404 with no
forwarding. -/
theorem route_not_found_amended_witness :
    appRespond cEnv cReqAnon "GET" "/nope" = (Outcome.responded 404, 0) :=
  route_not_found_amended cEnv cReqAnon "GET" "/nope" (by decide) (by decide)

/-- C8: with an authenticated identity, the permission guard passes
exactly when the identity's permission set is a superset of the
required permissions and answers 403 otherwise, and the role guard
passes exactly when the identity holds at least one of the allowed
roles and answers 403 otherwise. -/
theorem authorization_guard_correct (u : UserInfo) (rs ps : List String) :
    (hasPermission ps (some u) = AuthStep.next (some u) ↔
      ∀ p ∈ ps, p ∈ u.permissions) ∧
    (¬ (∀ p ∈ ps, p ∈ u.permissions) →
      hasPermission ps (some u) = AuthStep.reject 403 "Access denied") ∧
    (hasRole rs (some u) = AuthStep.next (some u) ↔
      ∃ rl ∈ rs, rl ∈ u.roles) ∧
    (¬ (∃ rl ∈ rs, rl ∈ u.roles) →
      hasRole rs (some u) = AuthStep.reject 403 "Access denied") := by
  have hperm : (ps.all (fun p => u.permissions.contains p) = true) ↔
      ∀ p ∈ ps, p ∈ u.permissions := by
    simp [List.all_eq_true]
  have hrole : (rs.any (fun role => u.roles.contains role) = true) ↔
      ∃ rl ∈ rs, rl ∈ u.roles := by
    simp [List.any_eq_true]
  refine ⟨?_, ?_, ?_, ?_⟩
  · by_cases hc : ps.all (fun p => u.permissions.contains p) = true
    · have he : hasPermission ps (some u) = AuthStep.next (some u) := by
        simp [hasPermission, hc]
        exact hperm.mp hc
      exact iff_of_true he (hperm.mp hc)
    · have hxx : ¬ ∀ p ∈ ps, p ∈ u.permissions := fun hx => hc (hperm.mpr hx)
      have hc2 : ps.all (fun p => u.permissions.contains p) = false :=
        Bool.eq_false_iff.mpr hc
      have he : hasPermission ps (some u)
          = AuthStep.reject 403 "Access denied" := by
        simp [hasPermission, hc2]
        push_neg at hxx
        exact hxx
      exact iff_of_false (by simp [he]) hxx
  · intro hx
    have hc2 : ps.all (fun p => u.permissions.contains p) = false :=
      Bool.eq_false_iff.mpr (fun hc => hx (hperm.mp hc))
    simp [hasPermission, hc2]
    push_neg at hx
    exact hx
  · by_cases hc : rs.any (fun role => u.roles.contains role) = true
    · have he : hasRole rs (some u) = AuthStep.next (some u) := by
        simp [hasRole, hc]
        exact hrole.mp hc
      exact iff_of_true he (hrole.mp hc)
    · have hxx : ¬ ∃ rl ∈ rs, rl ∈ u.roles := fun hx => hc (hrole.mpr hx)
      have hc2 : rs.any (fun role => u.roles.contains role) = false :=
        Bool.eq_false_iff.mpr hc
      have he : hasRole rs (some u)
          = AuthStep.reject 403 "Access denied" := by
        simp [hasRole, hc2]
        push_neg at hxx
        exact hxx
      exact iff_of_false (by simp [he]) hxx
  · intro hx
    have hc2 : rs.any (fun role => u.roles.contains role) = false :=
      Bool.eq_false_iff.mpr (fun hc => hx (hrole.mp hc))
    simp [hasRole, hc2]
    push_neg at hx
    exact hx

/-- C8 witness: the sample identity passes a permission check it covers
and a role check it satisfies. -/
theorem authorization_guard_correct_witness :
    hasPermission ["projects:write"] (some (mkUser sampleToken.payload))
      = AuthStep.next (some (mkUser sampleToken.payload)) ∧
    hasRole ["admin", "editor"] (some (mkUser sampleToken.payload))
      = AuthStep.next (some (mkUser sampleToken.payload)) :=
  ⟨(authorization_guard_correct (mkUser sampleToken.payload) ["admin", "editor"]
      ["projects:write"]).1.mpr (by decide),
   (authorization_guard_correct (mkUser sampleToken.payload) ["admin", "editor"]
      ["projects:write"]).2.2.1.mpr (by decide)⟩

/-- C9: on any registered-route chain, the outbound identity headers
are set exactly when an identity was established (both are the image of
the identity the authenticate stage left), and when the request carries
a token that verifies, the forwarded request carries X-User-Id equal to
the sub claim and X-User-Roles equal to the JSON encoding of exactly
the roles claim of the verified token. -/
theorem identity_headers_roundtrip (env : ChainEnv) (r : ReqIn)
    (s : ServiceDef) (rt : RouteDef) (t : String) (hd : ProxyHeaders)
    (b : Nat) (tok : Token) (tkStr : String) :
    ((runChain env r (routeChain s rt) none).1 = Outcome.forwarded t hd b →
      hd.xUserId = (identityOf env.auth rt.auth r).map (fun u => u.id) ∧
      hd.xUserRoles = (identityOf env.auth rt.auth r).map
        (fun u => jsonStringArray u.roles)) ∧
    ((rateCheck (routeLimiter s rt) env.rateState env.now).1
        = RateDecision.allowed →
     presentToken r = some tkStr →
     env.auth.decode tkStr = some tok →
     (verifyTokenStr env.auth tkStr).result = Except.ok tok.payload →
     (runChain env r (routeChain s rt) none).1 =
       Outcome.forwarded s.target
         ⟨some tok.payload.sub,
          some (jsonStringArray (tok.payload.roles.getD [])),
          some env.requestId⟩
         (env.backendStatus s.target)) := by
  constructor
  · intro hfwd
    unfold routeChain at hfwd
    cases hrate : (rateCheck (routeLimiter s rt) env.rateState env.now).1 with
    | limited st2 rm => simp [runChain, hrate] at hfwd
    | allowed =>
        cases hauth : authenticate rt.auth env.auth r with
        | reject st2 m => simp [runChain, hrate, hauth] at hfwd
        | next u =>
            simp only [runChain, hrate, hauth] at hfwd
            have hid : identityOf env.auth rt.auth r = u := by
              unfold identityOf
              rw [hauth]
            rw [hid]
            injection hfwd with h1 h2 h3
            subst h2
            exact ⟨rfl, rfl⟩
  · intro hrate htk hdec hver
    have hauth : authenticate rt.auth env.auth r
        = AuthStep.next (some (mkUser tok.payload)) := by
      simp [authenticate, htk, hver]
    unfold routeChain
    simp [runChain, hrate, hauth, mkUser]

/-- C9 witness: the sample valid token on the profile GET /me route is
forwarded with both identity headers taken from its claims. -/
theorem identity_headers_roundtrip_witness :
    (runChain cEnv cReqGood (routeChain profileService cMeRoute) none).1 =
      Outcome.forwarded "http://profile-service:3002"
        ⟨some "user-1", some "[\"admin\"]", some "req-1"⟩ 200 :=
  (identity_headers_roundtrip cEnv cReqGood profileService cMeRoute
      "" ⟨none, none, none⟩ 0 sampleToken "good-token").2 rfl rfl rfl rfl

/-- C10: on a registered route that does not require authentication, a
request whose token fails verification is not rejected: the chain still
forwards it, with a null user and no identity-trust headers on the
outbound request. -/
theorem optional_auth_fail_open (env : ChainEnv) (r : ReqIn)
    (s : ServiceDef) (rt : RouteDef) (tkStr msg : String)
    (_hmem : (s, rt) ∈ registeredRoutes)
    (hreq : rt.auth = false)
    (hrate : (rateCheck (routeLimiter s rt) env.rateState env.now).1
      = RateDecision.allowed)
    (htk : presentToken r = some tkStr)
    (hfail : (verifyTokenStr env.auth tkStr).result = Except.error msg) :
    (runChain env r (routeChain s rt) none).1 =
      Outcome.forwarded s.target ⟨none, none, some env.requestId⟩
        (env.backendStatus s.target) ∧
    identityOf env.auth rt.auth r = none := by
  have hauth : authenticate rt.auth env.auth r = AuthStep.next none := by
    simp [authenticate, htk, hfail, hreq]
  constructor
  · unfold routeChain
    simp [runChain, hrate, hauth]
  · unfold identityOf
    rw [hauth]

/-- C10 witness: the expired sample token on the public profile GET
/:id route is forwarded with no identity headers. -/
theorem optional_auth_fail_open_witness :
    (runChain cEnv cReqBad
        (routeChain profileService ⟨"/:id", "GET", false⟩) none).1 =
      Outcome.forwarded "http://profile-service:3002"
        ⟨none, none, some "req-1"⟩ 200 ∧
    identityOf cEnv.auth false cReqBad = none :=
  optional_auth_fail_open cEnv cReqBad profileService ⟨"/:id", "GET", false⟩
    "bad-token" "Invalid token" (by decide) rfl rfl rfl rfl

end Gateway
